import Mathlib

/-
  Shallow embedding of the smart-city context engine
  (src/mcp_server/server.py and src/context_providers/*.py).

  Conventions of the embedding:
  - wall-clock time is a Nat (seconds); each operation receives the current
    time as an explicit parameter instead of calling datetime.now()
  - Python floats are embedded as Rat (the program only produces small
    decimal literals and does arithmetic no claim depends on for rounding)
  - fallible Python code returns Except PyErr; a try/except block is a
    match on that result
  - random draws (random.randint / random.choice / random.uniform) are
    passed in explicitly as an environment record
-/

namespace SmartCity

/-- Kinds of Python exceptions the embedded code can raise or catch. -/
inductive PyErr where
  | valueError
  | typeError
  | httpError
  | indexError
  deriving DecidableEq, Repr

/-- Decidable equality of computation outcomes. -/
instance {ε α : Type} [DecidableEq ε] [DecidableEq α] : DecidableEq (Except ε α) := fun x y =>
  match x, y with
  | .ok a, .ok b => if h : a = b then .isTrue (by rw [h]) else .isFalse (by simp [h])
  | .error e, .error f => if h : e = f then .isTrue (by rw [h]) else .isFalse (by simp [h])
  | .ok _, .error _ => .isFalse (by simp)
  | .error _, .ok _ => .isFalse (by simp)

/-- A calendar date, reduced to the fields the code touches via
datetime.now().replace(day := d): the current day of month and the number
of days in the current month. -/
structure Date where
  day : Nat
  daysInMonth : Nat
  deriving DecidableEq, Repr

/-- Python datetime.replace with a day argument: raises ValueError unless
1 <= d <= number of days in the month. -/
def Date.replaceDay (dt : Date) (d : Nat) : Except PyErr Date :=
  if 1 ≤ d ∧ d ≤ dt.daysInMonth then .ok { dt with day := d } else .error .valueError

/-- Mutable state shared by every provider (base_provider.py): the api key,
the source-local cached fragment and its fetch time.  cache_duration is the
fixed constant 300. -/
structure ProvState (Frag : Type) where
  apiKey : Option String := none
  cachedData : Option Frag := none
  lastFetchTime : Option Nat := none
  deriving DecidableEq

/-- base_provider.py BaseProvider.is_cache_valid (lines 32-38). -/
def BaseProvider.is_cache_valid (now : Nat) (lastFetchTime : Option Nat) : Bool :=
  match lastFetchTime with
  | none => false
  | some t => decide (now - t < 300)

/-- base_provider.py format_response wrapper (lines 40-54). -/
structure FormattedResp (Frag : Type) where
  data : Frag
  timestamp : Nat
  provider : String
  deriving DecidableEq

/-- base_provider.py BaseProvider.format_response. -/
def BaseProvider.format_response (provider : String) (now : Nat) (frag : Frag) :
    FormattedResp Frag :=
  { data := frag, timestamp := now, provider := provider }

/-! ### Weather provider (weather_provider.py) -/

/-- One element of the "weather" list in an OpenWeatherMap response. -/
structure WeatherObj where
  description : Option String := none
  main : Option String := none
  deriving DecidableEq

/-- The fields of an OpenWeatherMap JSON response that fetch_data extracts;
each is Option because the code reads them with dict.get and no default. -/
structure WeatherJson where
  name : Option String := none
  sysCountry : Option String := none
  mainTemp : Option Rat := none
  mainFeelsLike : Option Rat := none
  mainHumidity : Option Rat := none
  mainPressure : Option Rat := none
  weatherList : Option (List WeatherObj) := none
  windSpeed : Option Rat := none
  windDeg : Option Rat := none
  visibility : Option Rat := none
  cloudsAll : Option Rat := none
  deriving DecidableEq

/-- The weather fragment dict built by weather_provider.py (both the API
path, lines 51-64, and the mock path, lines 76-90).  Field names follow the
dict keys. -/
structure WeatherFrag where
  city : String
  country : String
  temperature : Option Rat
  feels_like : Option Rat
  humidity : Option Rat
  pressure : Option Rat
  description : String
  main_condition : String
  wind_speed : Option Rat
  wind_direction : Option Rat
  visibility : Option Rat
  cloudiness : Option Rat
  note : Option String := none
  deriving DecidableEq

namespace WeatherProvider

/-- weather_provider.py _get_mock_data (lines 74-90), the inner dict. -/
def get_mock_data (city country : String) : WeatherFrag :=
  { city := city
    country := country
    temperature := some (mkRat 31 2)    -- 15.5
    feels_like := some (mkRat 71 5)     -- 14.2
    humidity := some 65
    pressure := some 1013
    description := "partly cloudy"
    main_condition := "Clouds"
    wind_speed := some (mkRat 7 2)      -- 3.5
    wind_direction := some 180
    visibility := some 10000
    cloudiness := some 40
    note := some "Mock data - API key not configured" }

/-- The formatted_data dict built from the parsed JSON (lines 51-64).
data.get("weather", [{}])[0] raises IndexError when the response carries an
empty "weather" list; that raise is caught by the surrounding try. -/
def extract (city country : String) (j : WeatherJson) : Except PyErr WeatherFrag :=
  match j.weatherList.getD [{}] with
  | [] => .error .indexError
  | w :: _ =>
    .ok { city := j.name.getD city
          country := j.sysCountry.getD country
          temperature := j.mainTemp
          feels_like := j.mainFeelsLike
          humidity := j.mainHumidity
          pressure := j.mainPressure
          description := w.description.getD ""
          main_condition := w.main.getD ""
          wind_speed := j.windSpeed
          wind_direction := j.windDeg
          visibility := j.visibility
          cloudiness := j.cloudsAll }

/-- weather_provider.py WeatherProvider.fetch_data (lines 20-72).
httpResult is the outcome of the HTTP request + JSON decoding, when one is
made.  The try/except around the API path catches every error and falls
back to mock data without touching the provider state. -/
def fetch_data (now : Nat) (httpResult : Except PyErr WeatherJson)
    (city country : String) (st : ProvState WeatherFrag) :
    Except PyErr (FormattedResp WeatherFrag) × ProvState WeatherFrag :=
  match BaseProvider.is_cache_valid now st.lastFetchTime, st.cachedData with
  | true, some cd => (.ok (BaseProvider.format_response "WeatherProvider" now cd), st)
  | _, _ =>
    match st.apiKey with
    | none => (.ok (BaseProvider.format_response "WeatherProvider" now (get_mock_data city country)), st)
    | some _ =>
      match httpResult >>= extract city country with
      | .ok frag =>
        (.ok (BaseProvider.format_response "WeatherProvider" now frag),
         { st with cachedData := some frag, lastFetchTime := some now })
      | .error _ =>
        (.ok (BaseProvider.format_response "WeatherProvider" now (get_mock_data city country)), st)

end WeatherProvider

/-! ### Traffic provider (traffic_provider.py) -/

/-- The four traffic conditions random.choice picks from. -/
inductive TrafficCond where
  | low | moderate | heavy | severe
  deriving DecidableEq, Repr

def TrafficCond.asString : TrafficCond → String
  | .low => "low"
  | .moderate => "moderate"
  | .heavy => "heavy"
  | .severe => "severe"

/-- traffic_provider.py _get_traffic_recommendation (lines 73-81); the
dict lookup cannot miss because the key is always one of the four drawn
conditions. -/
def TrafficCond.recommendation : TrafficCond → String
  | .low => "Traffic is light. Good time to travel."
  | .moderate => "Moderate traffic expected. Allow some extra time."
  | .heavy => "Heavy traffic detected. Consider alternative routes or public transport."
  | .severe => "Severe traffic congestion. Strongly recommend public transport or delay travel."

structure TrafficRoute where
  name : String
  status : String
  delay_minutes : Nat
  deriving DecidableEq

/-- The traffic fragment dict (traffic_provider.py lines 59-71). -/
structure TrafficFrag where
  city : String
  country : String
  overall_traffic_level : String
  average_delay_minutes : Nat
  routes : List TrafficRoute
  recommendation : String
  peak_morning : String
  peak_evening : String
  note : String
  deriving DecidableEq

/-- The random draws _get_mock_traffic_data makes, in program order:
the overall condition (also the status of route 1), the delay of route 1 in 5..30,
and a condition and delay for each of routes 2..5. -/
structure TrafficRands where
  cond : TrafficCond
  delay0 : Nat
  cond1 : TrafficCond
  delay1 : Nat
  cond2 : TrafficCond
  delay2 : Nat
  cond3 : TrafficCond
  delay3 : Nat
  cond4 : TrafficCond
  delay4 : Nat

namespace TrafficProvider

/-- traffic_provider.py _get_mock_traffic_data (lines 42-71). -/
def get_mock_traffic_data (r : TrafficRands) (city country : String) : TrafficFrag :=
  let routes : List TrafficRoute :=
    [ { name := "City Center - Airport", status := r.cond.asString, delay_minutes := r.delay0 }
    , { name := "City Center - North District", status := r.cond1.asString, delay_minutes := r.delay1 }
    , { name := "City Center - South District", status := r.cond2.asString, delay_minutes := r.delay2 }
    , { name := "City Center - East District", status := r.cond3.asString, delay_minutes := r.delay3 }
    , { name := "City Center - West District", status := r.cond4.asString, delay_minutes := r.delay4 } ]
  { city := city
    country := country
    overall_traffic_level := r.cond.asString
    average_delay_minutes := (routes.map TrafficRoute.delay_minutes).sum / routes.length
    routes := routes
    recommendation := r.cond.recommendation
    peak_morning := "07:00 - 09:00"
    peak_evening := "17:00 - 19:00"
    note := "Mock traffic data - integrate with real API for production use" }

/-- traffic_provider.py TrafficProvider.fetch_data (lines 18-40). -/
def fetch_data (now : Nat) (r : TrafficRands) (city country : String)
    (st : ProvState TrafficFrag) :
    Except PyErr (FormattedResp TrafficFrag) × ProvState TrafficFrag :=
  match BaseProvider.is_cache_valid now st.lastFetchTime, st.cachedData with
  | true, some cd => (.ok (BaseProvider.format_response "TrafficProvider" now cd), st)
  | _, _ =>
    let frag := get_mock_traffic_data r city country
    (.ok (BaseProvider.format_response "TrafficProvider" now frag),
     { st with cachedData := some frag, lastFetchTime := some now })

end TrafficProvider

/-! ### Temperature provider (temperature_provider.py) -/

/-- The temperature fragment dict (temperature_provider.py lines 45-62).
current_temperature is total because construction aborts (TypeError) before
the dict exists whenever the underlying temperature is None. -/
structure TempFrag where
  city : String
  country : String
  current_temperature : Rat
  feels_like_temperature : Option Rat
  temperature_unit : String
  range_comfortable : Bool
  range_too_cold : Bool
  range_too_hot : Bool
  recommendation : String
  humidity : Option Rat
  wind_chill_factor : Rat
  deriving DecidableEq

/-- TemperatureProvider owns its base state plus a private WeatherProvider
instance constructed in __init__ (distinct from the one the server owns). -/
structure TempProvState where
  base : ProvState TempFrag
  weatherProv : ProvState WeatherFrag
  deriving DecidableEq

namespace TemperatureProvider

/-- temperature_provider.py _get_temperature_recommendation (lines 69-82). -/
def get_temperature_recommendation (temp : Rat) : String :=
  if temp < 0 then "Very cold! Dress warmly with multiple layers."
  else if temp < 10 then "Cold weather. Wear a warm jacket."
  else if temp < 18 then "Cool weather. A light jacket would be comfortable."
  else if temp < 25 then "Pleasant temperature. Light clothing is recommended."
  else if temp < 30 then "Warm weather. Light and breathable clothing."
  else "Hot weather! Stay hydrated and wear light, loose clothing."

/-- temperature_provider.py _calculate_wind_chill (lines 84-90).  The
display rounding round(wind_chill, 1) is not modelled; no claim reads the
value. -/
def calculate_wind_chill (temp windSpeed : Rat) : Rat :=
  if windSpeed < 5 then temp else temp - windSpeed * mkRat 1 2

/-- temperature_provider.py TemperatureProvider.fetch_data (lines 22-67).
The weather fragment always carries the "temperature" and "wind_speed"
keys, so dict.get returns their (possibly None) values; a None temperature
makes the chained comparison in temperature_range raise TypeError, and a
None wind speed makes the comparison in _calculate_wind_chill raise.
Neither raise is caught. -/
def fetch_data (now : Nat) (httpResult : Except PyErr WeatherJson)
    (city country : String) (st : TempProvState) :
    Except PyErr (FormattedResp TempFrag) × TempProvState :=
  match BaseProvider.is_cache_valid now st.base.lastFetchTime, st.base.cachedData with
  | true, some cd => (.ok (BaseProvider.format_response "TemperatureProvider" now cd), st)
  | _, _ =>
    match WeatherProvider.fetch_data now httpResult city country st.weatherProv with
    | (.error e, wst) => (.error e, { st with weatherProv := wst })
    | (.ok wresp, wst) =>
      let st1 : TempProvState := { st with weatherProv := wst }
      let wi := wresp.data
      match wi.temperature with
      | none => (.error .typeError, st1)
      | some temp =>
        match wi.wind_speed with
        | none => (.error .typeError, st1)
        | some ws =>
          let frag : TempFrag :=
            { city := wi.city
              country := wi.country
              current_temperature := temp
              feels_like_temperature := wi.feels_like
              temperature_unit := "celsius"
              range_comfortable := decide (18 ≤ temp ∧ temp ≤ 25)
              range_too_cold := decide (temp < 10)
              range_too_hot := decide (30 < temp)
              recommendation := get_temperature_recommendation temp
              humidity := wi.humidity
              wind_chill_factor := calculate_wind_chill temp ws }
          (.ok (BaseProvider.format_response "TemperatureProvider" now frag),
           { st1 with base := { st1.base with cachedData := some frag, lastFetchTime := some now } })

end TemperatureProvider

/-! ### Shop offers provider (shop_offers_provider.py) -/

/-- The two shapes of offer text the generator produces.  The Python sort
key float(offer.replace("% OFF", "").replace("Buy 1 Get 1 Free", "50"))
evaluates on exactly these shapes. -/
inductive OfferText where
  | percentOff (n : Nat)
  | buyOneGetOne
  deriving DecidableEq, Repr

def OfferText.asString : OfferText → String
  | .percentOff n => toString n ++ "% OFF"
  | .buyOneGetOne => "Buy 1 Get 1 Free"

/-- The numeric discount the sort key assigns to an offer text. -/
def OfferText.key : OfferText → Nat
  | .percentOff n => n
  | .buyOneGetOne => 50

structure Offer where
  category : String
  store : String
  offer : OfferText
  description : String
  valid_until : Date
  location : String
  distance_km : Rat
  deriving DecidableEq

/-- The shop-offers fragment dict (shop_offers_provider.py lines 82-95). -/
structure ShopFrag where
  city : String
  country : String
  total_offers : Nat
  featured_offers : List Offer
  category_offers : List Offer
  all_offers : List Offer
  best_deals : List Offer
  note : String
  deriving DecidableEq

/-- The random draws _get_mock_shop_offers makes, per category index:
randint(10, 50) discount, randint(1, 5) store number, randint(1, 7)
valid_until day offset.  distKm i stands for the already-rounded value
round(random.uniform(0.5, 5.0), 1). -/
structure ShopRands where
  discount : Fin 5 → Nat
  storeNum : Fin 5 → Nat
  validOffset : Fin 5 → Nat
  distKm : Fin 5 → Rat

/-- a sorts no later than b in the descending-by-key order. -/
def offerGE (a b : Offer) : Bool := decide (OfferText.key b.offer ≤ OfferText.key a.offer)

/-- Stable descending insertion: a goes in front of the first element whose
key is not above its own, so an element keeps its place relative to
equal-key elements that were already in the list. -/
def insertOfferDesc (a : Offer) : List Offer → List Offer
  | [] => [a]
  | b :: bs => if offerGE a b then a :: b :: bs else b :: insertOfferDesc a bs

/-- Python sorted(..., key, reverse := True) is the stable sort by
descending key, and stable insertion sort is that function. -/
def sortOffersDesc : List Offer → List Offer
  | [] => []
  | a :: as => insertOfferDesc a (sortOffersDesc as)

namespace ShopOffersProvider

def categories : List String :=
  ["Groceries", "Electronics", "Fashion", "Restaurants", "Entertainment"]

/-- One iteration of the offers loop (shop_offers_provider.py lines 48-58);
the valid_until computation datetime.now().replace(day := day + offset) can
raise ValueError near the end of a month. -/
def mkCategoryOffer (today : Date) (r : ShopRands) (city : String)
    (i : Fin 5) (cat : String) : Except PyErr Offer := do
  let vu ← today.replaceDay (today.day + r.validOffset i)
  .ok { category := cat
        store := cat ++ " Store " ++ toString (r.storeNum i)
        offer := .percentOff (r.discount i)
        description := "Special " ++ toString (r.discount i) ++ "% discount on selected items"
        valid_until := vu
        location := city ++ " City Center"
        distance_km := r.distKm i }

/-- shop_offers_provider.py _get_mock_shop_offers (lines 41-95). -/
def get_mock_shop_offers (today : Date) (r : ShopRands) (city country : String) :
    Except PyErr ShopFrag := do
  let o0 ← mkCategoryOffer today r city 0 "Groceries"
  let o1 ← mkCategoryOffer today r city 1 "Electronics"
  let o2 ← mkCategoryOffer today r city 2 "Fashion"
  let o3 ← mkCategoryOffer today r city 3 "Restaurants"
  let o4 ← mkCategoryOffer today r city 4 "Entertainment"
  let offers := [o0, o1, o2, o3, o4]
  let vuF0 ← today.replaceDay (today.day + 3)
  let vuF1 ← today.replaceDay (today.day + 2)
  let featured : List Offer :=
    [ { category := "Restaurants"
        store := "City Bistro"
        offer := .buyOneGetOne
        description := "Lunch special - Buy one main course, get one free"
        valid_until := vuF0
        location := city ++ " Downtown"
        distance_km := mkRat 6 5 }      -- 1.2
    , { category := "Groceries"
        store := "SuperMart"
        offer := .percentOff 20
        description := "Weekly grocery special - 20% off on all fresh produce"
        valid_until := vuF1
        location := city ++ " Shopping District"
        distance_km := mkRat 5 2 } ]    -- 2.5
  .ok { city := city
        country := country
        total_offers := offers.length + featured.length
        featured_offers := featured
        category_offers := offers
        all_offers := featured ++ offers
        best_deals := (sortOffersDesc (featured ++ offers)).take 3
        note := "Mock shop offers data - integrate with real APIs for production use" }

/-- shop_offers_provider.py ShopOffersProvider.fetch_data (lines 18-39).
There is no try/except: an error from the mock generator propagates, and
the raise happens before cached_data / last_fetch_time are assigned. -/
def fetch_data (now : Nat) (today : Date) (r : ShopRands) (city country : String)
    (st : ProvState ShopFrag) :
    Except PyErr (FormattedResp ShopFrag) × ProvState ShopFrag :=
  match BaseProvider.is_cache_valid now st.lastFetchTime, st.cachedData with
  | true, some cd => (.ok (BaseProvider.format_response "ShopOffersProvider" now cd), st)
  | _, _ =>
    match get_mock_shop_offers today r city country with
    | .error e => (.error e, st)
    | .ok frag =>
      (.ok (BaseProvider.format_response "ShopOffersProvider" now frag),
       { st with cachedData := some frag, lastFetchTime := some now })

end ShopOffersProvider

/-! ### MCP server (mcp_server/server.py) -/

/-- The data_cache dict written by fetch_all_data (server.py lines 69-79):
the four fragments plus the metadata block.  The server only ever stores
the empty dict (modelled as none at the ServerState level) or this full
shape. -/
structure Snapshot where
  weather : WeatherFrag
  traffic : TrafficFrag
  temperature : TempFrag
  shop_offers : ShopFrag
  metaCity : String
  metaCountry : String
  fetchedAt : Nat
  deriving DecidableEq

/-- SmartCityMCPServer state (server.py __init__, lines 25-38). -/
structure ServerState where
  weatherProv : ProvState WeatherFrag
  trafficProv : ProvState TrafficFrag
  temperatureProv : TempProvState
  shopProv : ProvState ShopFrag
  dataCache : Option Snapshot
  cacheTimestamp : Option Nat
  currentCity : String
  currentCountry : String
  deriving DecidableEq

/-- self.cache_duration = 300 (server.py line 34). -/
def cacheDuration : Nat := 300

/-- SmartCityMCPServer.__init__: empty cache, current context London/GB;
the weather key comes from the OPENWEATHER_API_KEY environment variable
(shared by the weather provider and the inner weather provider of the
temperature provider). -/
def initServer (weatherApiKey : Option String) : ServerState :=
  { weatherProv := { apiKey := weatherApiKey }
    trafficProv := {}
    temperatureProv := { base := { apiKey := weatherApiKey }, weatherProv := { apiKey := weatherApiKey } }
    shopProv := {}
    dataCache := none
    cacheTimestamp := none
    currentCity := "London"
    currentCountry := "GB" }

/-- The per-call inputs the outside world supplies to one fetch cycle:
the clock, the calendar date, the HTTP outcomes for the two weather-backed
providers and the random draws for the two mock providers. -/
structure FetchEnv where
  now : Nat
  today : Date
  weatherHttp : Except PyErr WeatherJson
  tempWeatherHttp : Except PyErr WeatherJson
  trafficRands : TrafficRands
  shopRands : ShopRands

/-- Python `city or self.current_city`: None and the empty string are both
falsy and fall back to the default. -/
def resolveArg (arg : Option String) (default : String) : String :=
  match arg with
  | none => default
  | some s => if s = "" then default else s

/-- server.py fetch_all_data (lines 40-82).  The four provider fetches run
concurrently under asyncio.gather; their states are pairwise disjoint, so
running them in order over their own states is equivalent.  gather without
return_exceptions propagates an exception from a failed task while the
other tasks still run to completion, so every provider state advance is
kept; the cache write (lines 69-80) happens only when all four succeed. -/
def fetch_all_data (env : FetchEnv) (cityArg countryArg : Option String)
    (st : ServerState) : Except PyErr Snapshot × ServerState :=
  let city := resolveArg cityArg st.currentCity
  let country := resolveArg countryArg st.currentCountry
  let st0 := { st with currentCity := city, currentCountry := country }
  let (wres, wst) := WeatherProvider.fetch_data env.now env.weatherHttp city country st.weatherProv
  let (trres, trst) := TrafficProvider.fetch_data env.now env.trafficRands city country st.trafficProv
  let (tres, tst) := TemperatureProvider.fetch_data env.now env.tempWeatherHttp city country st.temperatureProv
  let (sres, sst) := ShopOffersProvider.fetch_data env.now env.today env.shopRands city country st.shopProv
  let st1 := { st0 with weatherProv := wst, trafficProv := trst, temperatureProv := tst, shopProv := sst }
  match wres, trres, tres, sres with
  | .ok w, .ok tr, .ok t, .ok s =>
    let snap : Snapshot :=
      { weather := w.data, traffic := tr.data, temperature := t.data, shop_offers := s.data
        metaCity := city, metaCountry := country, fetchedAt := env.now }
    (.ok snap, { st1 with dataCache := some snap, cacheTimestamp := some env.now })
  | .error e, _, _, _ => (.error e, st1)
  | _, .error e, _, _ => (.error e, st1)
  | _, _, .error e, _ => (.error e, st1)
  | _, _, _, .error e => (.error e, st1)

namespace Server

/-- server.py SmartCityMCPServer.is_cache_valid (lines 84-90): a timestamp
exists, the elapsed time is strictly below cache_duration, and the cache
dict is non-empty.  Neither the cached city nor the cached country is
examined. -/
def is_cache_valid (now : Nat) (st : ServerState) : Bool :=
  match st.cacheTimestamp with
  | none => false
  | some t => decide (now - t < cacheDuration) && st.dataCache.isSome

end Server

/-- The refresh condition of get_city_data (server.py lines 108-109):
force_refresh, or an invalid cache, or a cached metadata city different
from the requested one.  The requested country plays no part. -/
def needs_refresh (now : Nat) (city : String) (force : Bool) (st : ServerState) : Bool :=
  force || !(Server.is_cache_valid now st)
        || decide (st.dataCache.map Snapshot.metaCity ≠ some city)

/-- server.py get_city_data (lines 92-112).  The Bool in the result records
whether fetch_all_data was invoked (the refresh branch). -/
def get_city_data (env : FetchEnv) (cityArg countryArg : Option String)
    (force : Bool) (st : ServerState) :
    Except PyErr (Option Snapshot) × ServerState × Bool :=
  let city := resolveArg cityArg st.currentCity
  let country := resolveArg countryArg st.currentCountry
  if needs_refresh env.now city force st then
    match fetch_all_data env (some city) (some country) st with
    | (.ok _, st1) => (.ok st1.dataCache, st1, true)
    | (.error e, st1) => (.error e, st1, true)
  else
    (.ok st.dataCache, st, false)

/-! ### Query classification and answer composition (server.py lines 129-204) -/

/-- The five topical buckets; general is the fallback. -/
inductive Category where
  | weather | temperature | traffic | shopping | general
  deriving DecidableEq, Repr

/-- server.py line 136. -/
def weather_keywords : List String :=
  ["weather", "rain", "sunny", "cloudy", "wind", "humidity", "pressure"]

/-- server.py line 147. -/
def temp_keywords : List String :=
  ["temperature", "temp", "hot", "cold", "warm", "cool"]

/-- server.py line 157. -/
def traffic_keywords : List String :=
  ["traffic", "road", "route", "congestion", "delay", "commute"]

/-- server.py line 167. -/
def shop_keywords : List String :=
  ["shop", "store", "offer", "deal", "discount", "sale", "buy", "shopping"]

def isPrefixChars : List Char → List Char → Bool
  | [], _ => true
  | _ :: _, [] => false
  | a :: as, b :: bs => a == b && isPrefixChars as bs

/-- Substring membership on character lists (the Python `needle in hay`
test on str). -/
def containsChars (needle : List Char) : List Char → Bool
  | [] => isPrefixChars needle []
  | b :: bs => isPrefixChars needle (b :: bs) || containsChars needle bs

/-- Python `needle in hay` on strings. -/
def strContains (hay needle : String) : Bool := containsChars needle.data hay.data

/-- Python str.lower (the queries and keywords involved are ASCII). -/
def lowerStr (s : String) : String := String.mk (s.data.map Char.toLower)

/-- any(keyword in query_lower for keyword in keywords). -/
def anyKeyword (kws : List String) (queryLower : String) : Bool :=
  kws.any (fun kw => strContains queryLower kw)

/-- Whether the keyword list of one category matches the (already raw) query;
the query is lower-cased first, exactly as server.py line 129 does. -/
def catMatches (c : Category) (query : String) : Bool :=
  let ql := lowerStr query
  match c with
  | .weather => anyKeyword weather_keywords ql
  | .temperature => anyKeyword temp_keywords ql
  | .traffic => anyKeyword traffic_keywords ql
  | .shopping => anyKeyword shop_keywords ql
  | .general => false

/-- The intent classification implicit in answer_query: the four keyword
blocks are tested in source order (weather, temperature, traffic,
shopping); if none matches, the general branch runs (lines 179-192). -/
def classify (query : String) : List Category :=
  let ql := lowerStr query
  let m := (if anyKeyword weather_keywords ql then [Category.weather] else [])
        ++ (if anyKeyword temp_keywords ql then [Category.temperature] else [])
        ++ (if anyKeyword traffic_keywords ql then [Category.traffic] else [])
        ++ (if anyKeyword shop_keywords ql then [Category.shopping] else [])
  if m.isEmpty then [Category.general] else m

/-- The apostrophe character, written by code point. -/
def apos : String := String.singleton (Char.ofNat 39)

/-- Rendering of a numeric field into an f-string.  The digits Python
prints for a float are not reproduced; no claim constrains this text, only
that it is a function of the value. -/
def ratStr (q : Rat) : String := toString q

/-- A dict value of None renders as "None" inside an f-string. -/
def optRatStr : Option Rat → String
  | none => "None"
  | some q => ratStr q

/-- The relevant_data mapping assembled by answer_query: one optional
fragment per matched category, or the whole city_data dict in the general
branch (line 192). -/
inductive RelevantData where
  | parts (weather : Option WeatherFrag) (temperature : Option TempFrag)
          (traffic : Option TrafficFrag) (shop_offers : Option ShopFrag)
  | full (snap : Snapshot)
  deriving DecidableEq

/-- The response dict built at server.py lines 197-204. -/
structure AnswerResult where
  query : String
  answer : String
  relevantData : RelevantData
  timestamp : Nat
  city : String
  country : String
  deriving DecidableEq

/-- The weather sentence (server.py lines 140-144). -/
def weatherSentence (w : WeatherFrag) : String :=
  "Weather in " ++ w.city ++ ": " ++ w.description ++ ", Temperature: "
    ++ optRatStr w.temperature ++ "°C, Humidity: " ++ optRatStr w.humidity ++ "%"

/-- The temperature sentence (server.py lines 151-154). -/
def tempSentence (t : TempFrag) : String :=
  "Current temperature: " ++ ratStr t.current_temperature ++ "°C. " ++ t.recommendation

/-- The traffic sentence (server.py lines 161-164). -/
def trafficSentence (tr : TrafficFrag) : String :=
  "Traffic level: " ++ tr.overall_traffic_level ++ ". " ++ tr.recommendation

/-- One "store - offer" item of the shopping sentence (server.py line 173). -/
def dealString (o : Offer) : String := o.store ++ " - " ++ o.offer.asString

/-- The shopping sentence (server.py lines 171-176): the first three best
deals, or a count of total_offers when best_deals is empty. -/
def shoppingSentence (s : ShopFrag) : String :=
  if s.best_deals.isEmpty then
    "Found " ++ toString s.total_offers ++ " offers available in the city."
  else
    "Best deals available: " ++ String.intercalate ", " ((s.best_deals.take 3).map dealString)

/-- The combined sentence of the general branch (server.py lines 185-191). -/
def generalSentence (snap : Snapshot) : String :=
  "City conditions for " ++ snap.metaCity ++ ": Weather: " ++ snap.weather.description
    ++ ", Temperature: " ++ ratStr snap.temperature.current_temperature
    ++ "°C, Traffic: " ++ snap.traffic.overall_traffic_level
    ++ ", Available offers: " ++ toString snap.shop_offers.total_offers

/-- The answer_parts / relevant_data accumulation of answer_query
(server.py lines 131-192) for a snapshot-shaped city_data.  The dict.get
fallbacks to the city argument never fire on this shape (every key is
present), so the pair depends only on the snapshot and the query. -/
def composeParts (snap : Snapshot) (query : String) : List String × RelevantData :=
  let ql := lowerStr query
  let wM := anyKeyword weather_keywords ql
  let tM := anyKeyword temp_keywords ql
  let trM := anyKeyword traffic_keywords ql
  let sM := anyKeyword shop_keywords ql
  let parts := (if wM then [weatherSentence snap.weather] else [])
            ++ (if tM then [tempSentence snap.temperature] else [])
            ++ (if trM then [trafficSentence snap.traffic] else [])
            ++ (if sM then [shoppingSentence snap.shop_offers] else [])
  if parts.isEmpty then
    ([generalSentence snap], RelevantData.full snap)
  else
    (parts,
     RelevantData.parts
       (if wM then some snap.weather else none)
       (if tM then some snap.temperature else none)
       (if trM then some snap.traffic else none)
       (if sM then some snap.shop_offers else none))

/-- The fixed fallback answer (server.py line 195); unreachable because the
general branch always appends one sentence. -/
def fallbackAnswer : String :=
  "I couldn" ++ apos ++ "t find specific information for your query."

/-- The composition stage of answer_query (server.py lines 129-204), as a
function of the snapshot it reads, the raw query, the city/country
arguments and the clock.  The city and country arguments are dead on a
snapshot-shaped city_data (their only uses are dict.get defaults for keys
that are always present). -/
def answer_query_compose (snap : Snapshot) (query : String)
    (_cityArg _countryArg : String) (now : Nat) : AnswerResult :=
  let pr := composeParts snap query
  { query := query
    answer := if pr.1.isEmpty then fallbackAnswer else String.intercalate " " pr.1
    relevantData := pr.2
    timestamp := now
    city := snap.metaCity
    country := snap.metaCountry }

/-! ### Concrete inputs used by witnesses and counterexamples -/

/-- A date far from the end of the month: every replaceDay the generator
performs succeeds. -/
def okDate : Date := { day := 1, daysInMonth := 31 }

/-- The last day of a 31-day month, e.g. 2026-01-31. -/
def monthEnd : Date := { day := 31, daysInMonth := 31 }

/-- Concrete draws for the shop generator (all in the randint ranges). -/
def cShopRands : ShopRands :=
  { discount := fun _ => 10, storeNum := fun _ => 1
    validOffset := fun _ => 1, distKm := fun _ => 1 }

/-- Concrete draws for the traffic generator. -/
def cTrafficRands : TrafficRands :=
  { cond := .low, delay0 := 5, cond1 := .low, delay1 := 0, cond2 := .low, delay2 := 0
    cond3 := .low, delay3 := 0, cond4 := .low, delay4 := 0 }

/-- A benign environment at time 0: no API key is configured, so the HTTP
outcomes are never consulted. -/
def cEnv1 : FetchEnv :=
  { now := 0, today := okDate
    weatherHttp := .error .httpError, tempWeatherHttp := .error .httpError
    trafficRands := cTrafficRands, shopRands := cShopRands }

/-- The same environment 100 seconds later. -/
def cEnv2 : FetchEnv := { cEnv1 with now := 100 }

/-- The same environment on the last day of the month. -/
def cEnvMonthEnd : FetchEnv := { cEnv1 with today := monthEnd }

/-- First refresh: London/GB at time 0 against a fresh server. -/
def cRun1 : Except PyErr Snapshot × ServerState :=
  fetch_all_data cEnv1 (some "London") (some "GB") (initServer none)

/-- Second refresh: Paris/FR at time 100 against the state cRun1 left. -/
def cRun2 : Except PyErr Snapshot × ServerState :=
  fetch_all_data cEnv2 (some "Paris") (some "FR") cRun1.2

/-- A throwaway temperature fragment, used only as an Option default. -/
def defaultTempFrag : TempFrag :=
  { city := "", country := "", current_temperature := 0, feels_like_temperature := none
    temperature_unit := "", range_comfortable := false, range_too_cold := false
    range_too_hot := false, recommendation := "", humidity := none, wind_chill_factor := 0 }

/-- A throwaway shop fragment, used only as an Option default. -/
def defaultShopFrag : ShopFrag :=
  { city := "", country := "", total_offers := 0, featured_offers := []
    category_offers := [], all_offers := [], best_deals := [], note := "" }

/-- A throwaway snapshot, used only as an Option default. -/
def defaultSnapshot : Snapshot :=
  { weather := WeatherProvider.get_mock_data "" ""
    traffic := TrafficProvider.get_mock_traffic_data cTrafficRands "" ""
    temperature := defaultTempFrag
    shop_offers := defaultShopFrag
    metaCity := "", metaCountry := "", fetchedAt := 0 }

/-- The snapshot cRun1 left in the cache (London/GB, fetched at 0). -/
def c1snap : Snapshot := cRun1.2.dataCache.getD defaultSnapshot

/-- The shop fragment the generator produces at the benign date and draws. -/
def c9frag : ShopFrag :=
  (ShopOffersProvider.get_mock_shop_offers okDate cShopRands "London" "GB").toOption.getD
    defaultShopFrag

/-- The raised exception of a computation, if any. -/
def exceptErr {α : Type} : Except PyErr α → Option PyErr
  | .error e => some e
  | .ok _ => none

/-- The query string "How(apostrophe)s the traffic today?". -/
def howsTrafficQuery : String := "How" ++ apos ++ "s the traffic today?"

/-- The classifier the spec describes: filter the fixed category order by
keyword match, fall back to general when nothing matched.  (Spec wording, to
be compared with classify, which follows the code.) -/
def classifySpec (query : String) : List Category :=
  let m := [Category.weather, Category.temperature, Category.traffic,
            Category.shopping].filter (fun c => catMatches c query)
  if m.isEmpty then [Category.general] else m

/-- The freshness predicate of the spec, restricted to what the code
actually checks: a snapshot exists, its age is below the TTL and the cached
city equals the requested city.  (The spec also demands a country match;
the code has no such comparison.) -/
def validFor (now : Nat) (city : String) (st : ServerState) : Prop :=
  ∃ snap t, st.dataCache = some snap ∧ st.cacheTimestamp = some t ∧
    now - t < cacheDuration ∧ snap.metaCity = city

/-! ### Theorems -/

/-- C5: the cache validity check returns Valid exactly when a snapshot has
been cached (timestamp set and cache non-empty) and its age is strictly
below 300 seconds; the TTL constant is fixed at 300.  City and country do
not enter the check, so any age below 300 with matching city/country is in
particular Valid, and age exactly 300 or more is Stale. -/
theorem is_cache_valid_iff_age_lt_ttl :
    cacheDuration = 300 ∧
    ∀ (now : Nat) (st : ServerState),
      Server.is_cache_valid now st = true ↔
        ∃ t, st.cacheTimestamp = some t ∧ st.dataCache.isSome = true ∧ now - t < 300 := by
  refine ⟨rfl, fun now st => ?_⟩
  cases hts : st.cacheTimestamp with
  | none => simp [Server.is_cache_valid, hts]
  | some t =>
    simp [Server.is_cache_valid, hts, cacheDuration, and_comm]

/-- C8: composition is pure and deterministic.  For a fixed snapshot and a
fixed query (hence a fixed intent set), the answer string and the
relevant-data mapping are identical across calls: they do not depend on the
clock the call reads for the timestamp field, nor on the city/country
arguments. -/
theorem compose_deterministic :
    ∀ (snap : Snapshot) (query c1 k1 c2 k2 : String) (t1 t2 : Nat),
      (answer_query_compose snap query c1 k1 t1).answer
        = (answer_query_compose snap query c2 k2 t2).answer ∧
      (answer_query_compose snap query c1 k1 t1).relevantData
        = (answer_query_compose snap query c2 k2 t2).relevantData :=
  fun _ _ _ _ _ _ _ _ => ⟨rfl, rfl⟩

/-- C7: classification lower-cases the query and keeps every matching
category in the fixed order weather, temperature, traffic, shopping, with
the single general category exactly when no keyword matches; the three
spec examples classify as stated. -/
theorem classify_matches_spec :
    (∀ q, classify q = classifySpec q) ∧
    (∀ q, classify q = [Category.general] ↔
      (catMatches .weather q = false ∧ catMatches .temperature q = false ∧
       catMatches .traffic q = false ∧ catMatches .shopping q = false)) ∧
    classify howsTrafficQuery = [Category.traffic] ∧
    classify "Is it hot and are there deals?" = [Category.temperature, Category.shopping] ∧
    classify "Tell me about the city" = [Category.general] := by
  refine ⟨fun q => ?_, fun q => ?_, by decide, by decide, by decide⟩
  · simp only [classify, classifySpec, catMatches, List.filter]
    cases anyKeyword weather_keywords (lowerStr q) <;>
      cases anyKeyword temp_keywords (lowerStr q) <;>
        cases anyKeyword traffic_keywords (lowerStr q) <;>
          cases anyKeyword shop_keywords (lowerStr q) <;> rfl
  · simp only [classify, catMatches]
    cases anyKeyword weather_keywords (lowerStr q) <;>
      cases anyKeyword temp_keywords (lowerStr q) <;>
        cases anyKeyword traffic_keywords (lowerStr q) <;>
          cases anyKeyword shop_keywords (lowerStr q) <;> simp

/-- get_city_data reports a refresh exactly when needs_refresh holds for
the resolved city. -/
lemma get_city_data_flag (env : FetchEnv) (city country : String) (force : Bool)
    (st : ServerState) (hc : city ≠ "") :
    (get_city_data env (some city) (some country) force st).2.2
      = needs_refresh env.now city force st := by
  unfold get_city_data
  simp only [resolveArg, if_neg hc]
  by_cases h : needs_refresh env.now city force st = true
  · rw [if_pos h, h]
    split <;> rfl
  · rw [if_neg h]
    simp [Bool.not_eq_true] at h
    simp [h]

/-- The Bool refresh condition, as a proposition about validFor. -/
lemma needs_refresh_iff (now : Nat) (city : String) (force : Bool) (st : ServerState) :
    needs_refresh now city force st = true ↔ (force = true ∨ ¬ validFor now city st) := by
  unfold needs_refresh validFor Server.is_cache_valid
  cases force
  · cases hts : st.cacheTimestamp with
    | none => simp [hts]
    | some t =>
      cases hdc : st.dataCache with
      | none => simp [hdc]
      | some snap =>
        by_cases hage : now - t < cacheDuration <;>
          by_cases hcity : snap.metaCity = city <;>
            simp [hts, hdc, hage, hcity]
  · simp

/-- C1 (amended): getContext triggers a full refresh iff forceRefresh or
the cache is not valid for the requested city, where valid means: a
snapshot exists, its age is below the TTL and the cached city equals the
requested city.  The requested country is never compared, so (contrary to
the original claim) a different country with the same city and a young
cache does not refresh. -/
theorem get_city_data_refresh_iff :
    ∀ (env : FetchEnv) (city country : String) (force : Bool) (st : ServerState),
      city ≠ "" →
      ((get_city_data env (some city) (some country) force st).2.2 = true
        ↔ (force = true ∨ ¬ validFor env.now city st)) := by
  intro env city country force st hc
  rw [get_city_data_flag env city country force st hc]
  exact needs_refresh_iff env.now city force st

/-- C1 witness: at time 10 with the London/GB cache of cRun1 and
forceRefresh = false for London/GB, the cache is valid and no refresh
happens. -/
theorem get_city_data_refresh_iff_witness :
    ("London" : String) ≠ "" ∧
    ¬ ((get_city_data { cEnv1 with now := 10 } (some "London") (some "GB") false cRun1.2).2.2
        = true) ∧ validFor 10 "London" cRun1.2 := by
  have h := get_city_data_refresh_iff { cEnv1 with now := 10 } "London" "GB" false cRun1.2
    (by decide)
  refine ⟨by decide, fun hr => ?_, c1snap, 0, by decide, by decide, by decide, by decide⟩
  rcases h.mp hr with h1 | h2
  · exact absurd h1 (by decide)
  · exact h2 ⟨c1snap, 0, by decide, by decide, by decide, by decide⟩

/-- C1 counterexample: the state cached by cRun1 holds London/GB fetched at
time 0; at time 10 a request for London with country FR (different from the
cached GB) performs no refresh, although the original claim requires one. -/
theorem get_city_data_ignores_country :
    cRun1.2.dataCache.map Snapshot.metaCity = some "London" ∧
    cRun1.2.dataCache.map Snapshot.metaCountry = some "GB" ∧
    cRun1.2.cacheTimestamp = some 0 ∧
    (get_city_data { cEnv1 with now := 10 } (some "London") (some "FR") false cRun1.2).2.2
      = false := by
  refine ⟨by decide, by decide, by decide, by decide⟩

/-- C6: whenever the cached snapshot describes a city other than the
(non-empty) requested one, get_city_data refreshes, whatever the cache age
and the force flag. -/
theorem city_switch_forces_refresh :
    ∀ (env : FetchEnv) (city country : String) (force : Bool) (st : ServerState)
      (snap : Snapshot),
      city ≠ "" →
      st.dataCache = some snap →
      snap.metaCity ≠ city →
      (get_city_data env (some city) (some country) force st).2.2 = true := by
  intro env city country force st snap hc hdc hne
  rw [get_city_data_flag env city country force st hc]
  unfold needs_refresh
  simp [hdc, hne]

/-- C6 witness: with the London snapshot of cRun1 cached 10 seconds ago,
requesting Berlin refreshes. -/
theorem city_switch_forces_refresh_witness :
    cRun1.2.dataCache = some c1snap ∧ c1snap.metaCity ≠ "Berlin" ∧
    (get_city_data { cEnv1 with now := 10 } (some "Berlin") (some "GB") false cRun1.2).2.2
      = true :=
  ⟨by decide, by decide,
   city_switch_forces_refresh { cEnv1 with now := 10 } "Berlin" "GB" false cRun1.2 c1snap
     (by decide) (by decide) (by decide)⟩

/-- C2 (code bug): contrary to the no-raise contract, the shop-offers
source propagates an exception.  On the last day of a 31-day month
(e.g. 2026-01-31) the very first ShopOffersProvider.fetch_data call
evaluates datetime.now().replace(day := 32), which raises ValueError, and
fetch_all_data propagates it instead of substituting a degraded fragment. -/
theorem shop_fetch_raises_at_month_end :
    exceptErr (ShopOffersProvider.fetch_data 0 monthEnd cShopRands "London" "GB" {}).1
      = some .valueError ∧
    exceptErr (fetch_all_data cEnvMonthEnd (some "London") (some "GB") (initServer none)).1
      = some .valueError :=
  ⟨by decide, by decide⟩

/-- C3 counterexample: after a London/GB refresh at time 0, a fetch_all for
Paris/FR at time 100 succeeds and is cached, yet its shop-offers, traffic
and temperature fragments still describe London, served from the local
cache of each source (which never compares the requested city). -/
theorem fetch_all_returns_stale_city_fragments :
    cRun1.1.toOption.map Snapshot.metaCity = some "London" ∧
    cRun2.1.toOption.map Snapshot.metaCity = some "Paris" ∧
    cRun2.1.toOption.map (fun s => s.shop_offers.city) = some "London" ∧
    cRun2.1.toOption.map (fun s => s.traffic.city) = some "London" ∧
    cRun2.1.toOption.map (fun s => s.temperature.city) = some "London" ∧
    cRun2.2.cacheTimestamp = some 100 := by
  refine ⟨by decide, by decide, by decide, by decide, by decide, by decide⟩

/-- Inversion of a successful Except bind. -/
lemma exceptBind_ok {α β : Type} {x : Except PyErr α} {f : α → Except PyErr β} {b : β}
    (h : (x >>= f) = .ok b) : ∃ a, x = .ok a ∧ f a = .ok b := by
  cases x with
  | ok a => exact ⟨a, rfl, h⟩
  | error e => exact absurd h (by simp [Bind.bind, Except.bind])

/-- What a successful run of the mock shop generator always produces:
the requested city/country tag, all_offers as featured ++ category offers,
best_deals as the first three of the descending stable sort, and the fixed
total of 7 offers. -/
lemma get_mock_shop_offers_ok (today : Date) (r : ShopRands) (city country : String)
    (frag : ShopFrag)
    (h : ShopOffersProvider.get_mock_shop_offers today r city country = .ok frag) :
    frag.city = city ∧ frag.country = country ∧
    frag.all_offers = frag.featured_offers ++ frag.category_offers ∧
    frag.best_deals = (sortOffersDesc frag.all_offers).take 3 ∧
    frag.total_offers = 7 := by
  unfold ShopOffersProvider.get_mock_shop_offers at h
  obtain ⟨o0, h0, h⟩ := exceptBind_ok h
  obtain ⟨o1, h1, h⟩ := exceptBind_ok h
  obtain ⟨o2, h2, h⟩ := exceptBind_ok h
  obtain ⟨o3, h3, h⟩ := exceptBind_ok h
  obtain ⟨o4, h4, h⟩ := exceptBind_ok h
  obtain ⟨v0, hv0, h⟩ := exceptBind_ok h
  obtain ⟨v1, hv1, h⟩ := exceptBind_ok h
  injection h with h
  subst h
  exact ⟨rfl, rfl, rfl, rfl, rfl⟩

/-- Inserting permutes to consing. -/
lemma insertOfferDesc_perm (a : Offer) (l : List Offer) :
    (insertOfferDesc a l).Perm (a :: l) := by
  induction l with
  | nil => exact List.Perm.refl _
  | cons b bs ih =>
    unfold insertOfferDesc
    by_cases h : offerGE a b = true
    · rw [if_pos h]
    · rw [if_neg h]
      exact (ih.cons b).trans (List.Perm.swap a b bs)

/-- The stable descending sort permutes its input. -/
lemma sortOffersDesc_perm (l : List Offer) : (sortOffersDesc l).Perm l := by
  induction l with
  | nil => exact List.Perm.refl _
  | cons a as ih => exact (insertOfferDesc_perm a (sortOffersDesc as)).trans (ih.cons a)

/-- Inserting into a descending-by-key list keeps it descending. -/
lemma insertOfferDesc_sorted (a : Offer) (l : List Offer)
    (h : l.Pairwise (fun x y => OfferText.key y.offer ≤ OfferText.key x.offer)) :
    (insertOfferDesc a l).Pairwise (fun x y => OfferText.key y.offer ≤ OfferText.key x.offer) := by
  induction l with
  | nil => simp [insertOfferDesc]
  | cons b bs ih =>
    obtain ⟨hb, hbs⟩ := List.pairwise_cons.mp h
    unfold insertOfferDesc
    by_cases hc : offerGE a b = true
    · rw [if_pos hc]
      have hba : OfferText.key b.offer ≤ OfferText.key a.offer := by
        have := of_decide_eq_true hc
        exact this
      refine List.pairwise_cons.mpr ⟨?_, h⟩
      intro x hx
      rcases List.mem_cons.mp hx with rfl | hx
      · exact hba
      · exact le_trans (hb x hx) hba
    · rw [if_neg hc]
      have hab : OfferText.key a.offer ≤ OfferText.key b.offer := by
        have h' : OfferText.key a.offer < OfferText.key b.offer := by
          simpa [offerGE] using hc
        omega
      refine List.pairwise_cons.mpr ⟨?_, ih hbs⟩
      intro x hx
      rcases List.mem_cons.mp ((insertOfferDesc_perm a bs).mem_iff.mp hx) with rfl | hx
      · exact hab
      · exact hb x hx

/-- The stable descending sort is descending by key. -/
lemma sortOffersDesc_sorted (l : List Offer) :
    (sortOffersDesc l).Pairwise (fun x y => OfferText.key y.offer ≤ OfferText.key x.offer) := by
  induction l with
  | nil => simp [sortOffersDesc]
  | cons a as ih => exact insertOfferDesc_sorted a (sortOffersDesc as) ih

/-- C9: every generated shop-offers fragment has best_deals equal to the
first three of a descending-by-discount reordering of all_offers (with the
Buy 1 Get 1 Free offer valued at 50), and the composed shopping sentence
lists at most the first three best deals as "store - offer" pairs, falling
back to the total_offers count when best_deals is empty. -/
theorem best_deals_are_top3_by_discount :
    ∀ (today : Date) (r : ShopRands) (city country : String) (frag : ShopFrag),
      ShopOffersProvider.get_mock_shop_offers today r city country = .ok frag →
      ((∃ l : List Offer, l.Perm frag.all_offers ∧
          l.Pairwise (fun x y => OfferText.key y.offer ≤ OfferText.key x.offer) ∧
          frag.best_deals = l.take 3) ∧
        OfferText.key .buyOneGetOne = 50 ∧
        (∀ s : ShopFrag, s.best_deals ≠ [] → shoppingSentence s =
          "Best deals available: " ++
            String.intercalate ", " ((s.best_deals.take 3).map dealString)) ∧
        (∀ s : ShopFrag, s.best_deals = [] → shoppingSentence s =
          "Found " ++ toString s.total_offers ++ " offers available in the city.")) := by
  intro today r city country frag h
  obtain ⟨-, -, -, hbest, -⟩ := get_mock_shop_offers_ok today r city country frag h
  refine ⟨⟨sortOffersDesc frag.all_offers, sortOffersDesc_perm _, sortOffersDesc_sorted _, hbest⟩,
    rfl, ?_, ?_⟩
  · intro s hs
    simp [shoppingSentence, hs]
  · intro s hs
    simp [shoppingSentence, hs]

/-- C9 witness: the theorem applied to the fragment generated at a benign
date with concrete draws, plus both shapes of the shopping sentence. -/
theorem best_deals_are_top3_by_discount_witness :
    (∃ l : List Offer, l.Perm c9frag.all_offers ∧
        l.Pairwise (fun x y => OfferText.key y.offer ≤ OfferText.key x.offer) ∧
        c9frag.best_deals = l.take 3) ∧
    shoppingSentence c9frag =
      "Best deals available: " ++
        String.intercalate ", " ((c9frag.best_deals.take 3).map dealString) ∧
    shoppingSentence defaultShopFrag =
      "Found " ++ toString defaultShopFrag.total_offers ++ " offers available in the city." := by
  have h := best_deals_are_top3_by_discount okDate cShopRands "London" "GB" c9frag (by decide)
  exact ⟨h.1, h.2.2.1 c9frag (by decide), h.2.2.2 defaultShopFrag (by decide)⟩

/-- A weather provider whose local cache is cold and which has no API key
returns the mock fragment for the requested city and leaves its state
untouched. -/
lemma weather_fetch_cold_nokey (now : Nat) (http : Except PyErr WeatherJson)
    (city country : String) (st : ProvState WeatherFrag)
    (hv : BaseProvider.is_cache_valid now st.lastFetchTime = false)
    (hk : st.apiKey = none) :
    WeatherProvider.fetch_data now http city country st
      = (.ok (BaseProvider.format_response "WeatherProvider" now
              (WeatherProvider.get_mock_data city country)), st) := by
  unfold WeatherProvider.fetch_data
  rw [hv, hk]

/-- A traffic provider with a cold local cache generates a fresh mock
fragment for the requested city and caches it. -/
lemma traffic_fetch_cold (now : Nat) (r : TrafficRands) (city country : String)
    (st : ProvState TrafficFrag)
    (hv : BaseProvider.is_cache_valid now st.lastFetchTime = false) :
    TrafficProvider.fetch_data now r city country st
      = (.ok (BaseProvider.format_response "TrafficProvider" now
              (TrafficProvider.get_mock_traffic_data r city country)),
         { st with cachedData := some (TrafficProvider.get_mock_traffic_data r city country)
                   lastFetchTime := some now }) := by
  unfold TrafficProvider.fetch_data
  rw [hv]

/-- A shop provider with a cold local cache runs the generator. -/
lemma shop_fetch_cold (now : Nat) (today : Date) (r : ShopRands) (city country : String)
    (st : ProvState ShopFrag)
    (hv : BaseProvider.is_cache_valid now st.lastFetchTime = false) :
    ShopOffersProvider.fetch_data now today r city country st
      = match ShopOffersProvider.get_mock_shop_offers today r city country with
        | .error e => (.error e, st)
        | .ok frag =>
          (.ok (BaseProvider.format_response "ShopOffersProvider" now frag),
           { st with cachedData := some frag, lastFetchTime := some now }) := by
  unfold ShopOffersProvider.fetch_data
  rw [hv]

/-- A temperature provider whose base cache is cold and whose private
weather provider is cold and keyless builds a fragment tagged with the
requested city and country. -/
lemma temp_fetch_cold_nokey (now : Nat) (http : Except PyErr WeatherJson)
    (city country : String) (st : TempProvState)
    (hbv : BaseProvider.is_cache_valid now st.base.lastFetchTime = false)
    (hwv : BaseProvider.is_cache_valid now st.weatherProv.lastFetchTime = false)
    (hwk : st.weatherProv.apiKey = none) :
    ∃ frag st2, TemperatureProvider.fetch_data now http city country st
        = (.ok (BaseProvider.format_response "TemperatureProvider" now frag), st2)
      ∧ frag.city = city ∧ frag.country = country := by
  unfold TemperatureProvider.fetch_data
  rw [hbv, weather_fetch_cold_nokey now http city country st.weatherProv hwv hwk]
  exact ⟨_, _, rfl, rfl, rfl⟩

/-- C3 (amended): fetch_all assembles its snapshot from per-source
fetch_data, and each source serves its local cache regardless of the
requested city whenever its own last fetch is younger than 300 seconds
(see fetch_all_returns_stale_city_fragments); only when every source-local
cache is cold (and no API key redirects the weather text) are all four
fragments freshly generated for the requested city. -/
theorem fetch_all_fresh_when_source_caches_cold :
    ∀ (env : FetchEnv) (city country : String) (st : ServerState) (snap : Snapshot),
      city ≠ "" → country ≠ "" →
      BaseProvider.is_cache_valid env.now st.weatherProv.lastFetchTime = false →
      st.weatherProv.apiKey = none →
      BaseProvider.is_cache_valid env.now st.trafficProv.lastFetchTime = false →
      BaseProvider.is_cache_valid env.now st.temperatureProv.base.lastFetchTime = false →
      BaseProvider.is_cache_valid env.now st.temperatureProv.weatherProv.lastFetchTime = false →
      st.temperatureProv.weatherProv.apiKey = none →
      BaseProvider.is_cache_valid env.now st.shopProv.lastFetchTime = false →
      (fetch_all_data env (some city) (some country) st).1 = .ok snap →
      snap.metaCity = city ∧ snap.weather.city = city ∧ snap.traffic.city = city ∧
      snap.temperature.city = city ∧ snap.shop_offers.city = city := by
  intro env city country st snap hcc hkk hwv hwk htv htbv htwv htwk hsv hok
  obtain ⟨tfrag, tst2, htEq, htc, htk⟩ :=
    temp_fetch_cold_nokey env.now env.tempWeatherHttp city country st.temperatureProv htbv htwv htwk
  unfold fetch_all_data at hok
  simp only [resolveArg, if_neg hcc, if_neg hkk] at hok
  rw [weather_fetch_cold_nokey env.now env.weatherHttp city country st.weatherProv hwv hwk,
      traffic_fetch_cold env.now env.trafficRands city country st.trafficProv htv,
      htEq,
      shop_fetch_cold env.now env.today env.shopRands city country st.shopProv hsv] at hok
  rcases hgen : ShopOffersProvider.get_mock_shop_offers env.today env.shopRands city country
    with e | sfrag
  · rw [hgen] at hok
    exact absurd hok (by simp)
  · rw [hgen] at hok
    obtain ⟨hsc, -⟩ := get_mock_shop_offers_ok env.today env.shopRands city country sfrag hgen
    injection hok with h
    subst h
    exact ⟨rfl, rfl, rfl, htc, hsc⟩

/-- C3 amended witness: the first refresh of a fresh server produces a
snapshot all of whose fragments describe the requested London. -/
theorem fetch_all_fresh_when_source_caches_cold_witness :
    c1snap.metaCity = "London" ∧ c1snap.weather.city = "London" ∧
    c1snap.traffic.city = "London" ∧ c1snap.temperature.city = "London" ∧
    c1snap.shop_offers.city = "London" :=
  fetch_all_fresh_when_source_caches_cold cEnv1 "London" "GB" (initServer none) c1snap
    (by decide) (by decide) (by decide) (by decide) (by decide) (by decide) (by decide)
    (by decide) (by decide) (by decide)

/-- Everything one refresh does to the server state: the current context is
overwritten with the resolved request; on failure the cache fields are
exactly the old ones; on success the cache holds the new snapshot, stamped
with the refresh time and the requested city/country, and each fragment is
the data of the provider fetch belonging to that same cycle. -/
lemma fetch_all_shape (env : FetchEnv) (cArg kArg : Option String) (st : ServerState) :
    (fetch_all_data env cArg kArg st).2.currentCity = resolveArg cArg st.currentCity ∧
    (fetch_all_data env cArg kArg st).2.currentCountry = resolveArg kArg st.currentCountry ∧
    (∀ e, (fetch_all_data env cArg kArg st).1 = .error e →
      (fetch_all_data env cArg kArg st).2.dataCache = st.dataCache ∧
      (fetch_all_data env cArg kArg st).2.cacheTimestamp = st.cacheTimestamp) ∧
    (∀ snap, (fetch_all_data env cArg kArg st).1 = .ok snap →
      (fetch_all_data env cArg kArg st).2.dataCache = some snap ∧
      (fetch_all_data env cArg kArg st).2.cacheTimestamp = some env.now ∧
      snap.fetchedAt = env.now ∧
      snap.metaCity = resolveArg cArg st.currentCity ∧
      snap.metaCountry = resolveArg kArg st.currentCountry ∧
      (∃ w, (WeatherProvider.fetch_data env.now env.weatherHttp
              (resolveArg cArg st.currentCity) (resolveArg kArg st.currentCountry)
              st.weatherProv).1 = .ok w ∧ snap.weather = w.data) ∧
      (∃ tr, (TrafficProvider.fetch_data env.now env.trafficRands
              (resolveArg cArg st.currentCity) (resolveArg kArg st.currentCountry)
              st.trafficProv).1 = .ok tr ∧ snap.traffic = tr.data) ∧
      (∃ t, (TemperatureProvider.fetch_data env.now env.tempWeatherHttp
              (resolveArg cArg st.currentCity) (resolveArg kArg st.currentCountry)
              st.temperatureProv).1 = .ok t ∧ snap.temperature = t.data) ∧
      (∃ s, (ShopOffersProvider.fetch_data env.now env.today env.shopRands
              (resolveArg cArg st.currentCity) (resolveArg kArg st.currentCountry)
              st.shopProv).1 = .ok s ∧ snap.shop_offers = s.data)) := by
  rcases hW : WeatherProvider.fetch_data env.now env.weatherHttp
    (resolveArg cArg st.currentCity) (resolveArg kArg st.currentCountry) st.weatherProv
    with ⟨wres, wst⟩
  rcases hT : TrafficProvider.fetch_data env.now env.trafficRands
    (resolveArg cArg st.currentCity) (resolveArg kArg st.currentCountry) st.trafficProv
    with ⟨trres, trst⟩
  rcases hTe : TemperatureProvider.fetch_data env.now env.tempWeatherHttp
    (resolveArg cArg st.currentCity) (resolveArg kArg st.currentCountry) st.temperatureProv
    with ⟨tres, tst⟩
  rcases hS : ShopOffersProvider.fetch_data env.now env.today env.shopRands
    (resolveArg cArg st.currentCity) (resolveArg kArg st.currentCountry) st.shopProv
    with ⟨sres, sst⟩
  unfold fetch_all_data
  dsimp only
  rw [hW, hT, hTe, hS]
  dsimp only
  cases wres <;> cases trres <;> cases tres <;> cases sres <;>
    refine ⟨rfl, rfl, fun e he => ?_, fun snap hsn => ?_⟩ <;>
      first
        | exact ⟨rfl, rfl⟩
        | (dsimp only at he
           exact Except.noConfusion he)
        | (dsimp only at hsn
           exact Except.noConfusion hsn)
        | (dsimp only at hsn
           injection hsn with h
           subst h
           exact ⟨rfl, rfl, rfl, rfl, rfl, ⟨_, rfl, rfl⟩, ⟨_, rfl, rfl⟩, ⟨_, rfl, rfl⟩,
                  ⟨_, rfl, rfl⟩⟩)

/-- C4: a refresh is all-or-nothing for the snapshot cache.  If any source
raises, fetch_all fails and leaves data_cache and cache_timestamp exactly
as they were; on success it replaces the cache wholesale with a snapshot
whose four fragments all come from that same refresh cycle, stamped with
the refresh time and the requested city/country. -/
theorem fetch_all_atomic :
    ∀ (env : FetchEnv) (cArg kArg : Option String) (st : ServerState),
      (∀ e, (fetch_all_data env cArg kArg st).1 = .error e →
        (fetch_all_data env cArg kArg st).2.dataCache = st.dataCache ∧
        (fetch_all_data env cArg kArg st).2.cacheTimestamp = st.cacheTimestamp) ∧
      (∀ snap, (fetch_all_data env cArg kArg st).1 = .ok snap →
        (fetch_all_data env cArg kArg st).2.dataCache = some snap ∧
        (fetch_all_data env cArg kArg st).2.cacheTimestamp = some env.now ∧
        snap.fetchedAt = env.now ∧
        snap.metaCity = resolveArg cArg st.currentCity ∧
        snap.metaCountry = resolveArg kArg st.currentCountry ∧
        (∃ w, (WeatherProvider.fetch_data env.now env.weatherHttp
                (resolveArg cArg st.currentCity) (resolveArg kArg st.currentCountry)
                st.weatherProv).1 = .ok w ∧ snap.weather = w.data) ∧
        (∃ tr, (TrafficProvider.fetch_data env.now env.trafficRands
                (resolveArg cArg st.currentCity) (resolveArg kArg st.currentCountry)
                st.trafficProv).1 = .ok tr ∧ snap.traffic = tr.data) ∧
        (∃ t, (TemperatureProvider.fetch_data env.now env.tempWeatherHttp
                (resolveArg cArg st.currentCity) (resolveArg kArg st.currentCountry)
                st.temperatureProv).1 = .ok t ∧ snap.temperature = t.data) ∧
        (∃ s, (ShopOffersProvider.fetch_data env.now env.today env.shopRands
                (resolveArg cArg st.currentCity) (resolveArg kArg st.currentCountry)
                st.shopProv).1 = .ok s ∧ snap.shop_offers = s.data)) :=
  fun env cArg kArg st =>
    ⟨(fetch_all_shape env cArg kArg st).2.2.1, (fetch_all_shape env cArg kArg st).2.2.2⟩

/-- C4 witness: the month-end refresh fails and leaves the empty cache of
a fresh server untouched, while the benign refresh installs its snapshot. -/
theorem fetch_all_atomic_witness :
    ((fetch_all_data cEnvMonthEnd (some "Paris") (some "FR") (initServer none)).2.dataCache
        = (initServer none).dataCache ∧
     (fetch_all_data cEnvMonthEnd (some "Paris") (some "FR") (initServer none)).2.cacheTimestamp
        = (initServer none).cacheTimestamp) ∧
    (fetch_all_data cEnv1 (some "London") (some "GB") (initServer none)).2.dataCache
        = some c1snap := by
  refine ⟨(fetch_all_atomic cEnvMonthEnd (some "Paris") (some "FR") (initServer none)).1
    .valueError (by decide), ?_⟩
  exact ((fetch_all_atomic cEnv1 (some "London") (some "GB") (initServer none)).2 c1snap
    (by decide)).1

/-- With the current context already equal to the (truthy) arguments,
omitting the arguments makes no difference to get_city_data. -/
lemma get_city_data_default_args (env2 : FetchEnv) (force : Bool) (st' : ServerState)
    (c k : String) (hc : c ≠ "") (hk : k ≠ "")
    (hcur : st'.currentCity = c) (hkur : st'.currentCountry = k) :
    get_city_data env2 none none force st' = get_city_data env2 (some c) (some k) force st' := by
  have h1 : resolveArg (some c) st'.currentCity = resolveArg none st'.currentCity := by
    simp [resolveArg, hc, hcur]
  have h2 : resolveArg (some k) st'.currentCountry = resolveArg none st'.currentCountry := by
    simp [resolveArg, hk, hkur]
  unfold get_city_data
  rw [h1, h2]

/-- C10: fetch_all_data overwrites current_city and current_country with
the requested values before any fetch outcome is known, so even a failed
refresh (which leaves the cache fields untouched) permanently changes the
defaults: a later get_city_data that omits its arguments behaves exactly
like one passing the city and country of the failed request. -/
theorem fetch_all_overwrites_current_context :
    ∀ (env env2 : FetchEnv) (c k : String) (st : ServerState) (force : Bool),
      c ≠ "" → k ≠ "" →
      ((fetch_all_data env (some c) (some k) st).2.currentCity = c ∧
       (fetch_all_data env (some c) (some k) st).2.currentCountry = k) ∧
      (∀ e, (fetch_all_data env (some c) (some k) st).1 = .error e →
        (fetch_all_data env (some c) (some k) st).2.dataCache = st.dataCache ∧
        (fetch_all_data env (some c) (some k) st).2.cacheTimestamp = st.cacheTimestamp) ∧
      (get_city_data env2 none none force (fetch_all_data env (some c) (some k) st).2
        = get_city_data env2 (some c) (some k) force
            (fetch_all_data env (some c) (some k) st).2) := by
  intro env env2 c k st force hc hk
  obtain ⟨h1, h2, h3, -⟩ := fetch_all_shape env (some c) (some k) st
  have hrc : resolveArg (some c) st.currentCity = c := by simp [resolveArg, hc]
  have hrk : resolveArg (some k) st.currentCountry = k := by simp [resolveArg, hk]
  rw [hrc] at h1
  rw [hrk] at h2
  exact ⟨⟨h1, h2⟩, h3,
    (get_city_data_default_args env2 force _ c k hc hk h1 h2).symm ▸ rfl⟩

/-- C10 witness: the month-end refresh for Paris/FR fails, yet the current
context of the fresh server (London/GB) is now Paris/FR while the cache
fields are unchanged, and argument-free reads use the new context. -/
theorem fetch_all_overwrites_current_context_witness :
    ((fetch_all_data cEnvMonthEnd (some "Paris") (some "FR") (initServer none)).2.currentCity
        = "Paris" ∧
     (fetch_all_data cEnvMonthEnd (some "Paris") (some "FR") (initServer none)).2.currentCountry
        = "FR") ∧
    (∀ e, (fetch_all_data cEnvMonthEnd (some "Paris") (some "FR") (initServer none)).1
        = .error e →
      (fetch_all_data cEnvMonthEnd (some "Paris") (some "FR") (initServer none)).2.dataCache
          = (initServer none).dataCache ∧
      (fetch_all_data cEnvMonthEnd (some "Paris") (some "FR") (initServer none)).2.cacheTimestamp
          = (initServer none).cacheTimestamp) ∧
    (get_city_data cEnv2 none none false
        (fetch_all_data cEnvMonthEnd (some "Paris") (some "FR") (initServer none)).2
      = get_city_data cEnv2 (some "Paris") (some "FR") false
          (fetch_all_data cEnvMonthEnd (some "Paris") (some "FR") (initServer none)).2) :=
  fetch_all_overwrites_current_context cEnvMonthEnd cEnv2 "Paris" "FR" (initServer none) false
    (by decide) (by decide)

end SmartCity
